import Mathlib

/-!
# boost.limits: resource-limit queries of `limits_unix.cpp`

A shallow embedding of `src/detail/limits_unix.cpp` (declared in `src/limits.hpp`).

* C integers are natural numbers; arithmetic done in `unsigned long` is reduced
  modulo `SIZE_MAX + 1`, and `boost::numeric_cast` is a checked conversion that
  raises `bad_numeric_cast` when the operand exceeds the target type's maximum.
* The operating system is an explicit `Host` value (limit table, memory
  snapshot); `getrlimit`, `setrlimit` and `sysinfo` are functions on it.  Every
  operation takes a fault plan `fail : Nat → Bool`: `fail k = true` makes the
  `k`-th host call of that invocation return `-1`.
* A `long double` is the exact quotient it holds, or `+inf`, or NaN.
* Text written to `std::cout` / `std::cerr` is the list of lines written.
-/

namespace boost.limits

/-! ## Numeric types -/

/-- The values a `long double` takes in this program: the exact quotient
`num / den` (with `den > 0`), positive infinity, or not-a-number. -/
inductive LongDouble where
  | finite (num den : Nat)
  | inf
  | nan
deriving DecidableEq

/-- What the source leaves to the platform: the widths of `std::size_t`
(also the width of `unsigned long`) and of `rlim_t`, the value a conversion
`(std::size_t)x` produces when `x` is outside the range of `std::size_t`
(the language leaves that conversion undefined), the text the stream prints for
a `long double`, and `strerror`.  The source is built against the Linux
headers (`sys/sysinfo.h`, `sys/resource.h`), where `rlim_t` is `unsigned long`
or an unsigned 64-bit type: it is never narrower than `std::size_t`. -/
structure Platform where
  SIZE_MAX : Nat
  RLIM_T_MAX : Nat
  cast_out_of_range : Nat
  show_long_double : LongDouble → String
  strerror : Nat → String
  size_le_rlim : SIZE_MAX ≤ RLIM_T_MAX

/-- The division `((long double)bytes) / ((long double)size)` (IEEE: a nonzero
value over zero is `+inf`, zero over zero is NaN). -/
def long_double_div (bytes size : Nat) : LongDouble :=
  if size = 0 then (if bytes = 0 then LongDouble.nan else LongDouble.inf)
  else LongDouble.finite bytes size

/-- The conversion `(std::size_t)result`: truncation toward zero when the
truncated value is a `std::size_t`, the platform's value otherwise. -/
def to_size_t (P : Platform) : LongDouble → Nat
  | LongDouble.finite num den =>
    if den ≠ 0 ∧ num / den ≤ P.SIZE_MAX then num / den else P.cast_out_of_range
  | LongDouble.inf => P.cast_out_of_range
  | LongDouble.nan => P.cast_out_of_range

/-- The checked conversion `boost::numeric_cast<T>(v)` between unsigned types:
the value itself when it fits `T`, `none` (a thrown `bad_numeric_cast`)
otherwise. -/
def numeric_cast (T_MAX : Nat) (v : Nat) : Option Nat :=
  if v ≤ T_MAX then some v else none

/-! ## The unit table and `value_as_biggest_unit` -/

/-- The record `struct Unit` of the source. -/
structure Unit where
  name : String
  size : Nat
deriving DecidableEq

/-- The constant `static const std::size_t maxUnits = 5`. -/
def maxUnits : Nat := 5

/-- The array `static Unit units[maxUnits]`: four initialisers, the remaining
element is value-initialised (empty name, size zero). -/
def units : List Unit :=
  [ ⟨"bytes", 1⟩,
    ⟨"KiBytes", 1024⟩,
    ⟨"MiBytes", 1024 * 1024⟩,
    ⟨"GiBytes", 1024 * 1024 * 1024⟩,
    ⟨"", 0⟩ ]

/-- The element `units[i]`. -/
def unit_at (i : Nat) : Unit := units.getD i ⟨"", 0⟩

/-- The loop `for (int i = maxUnits - 1; i >= 0; --i)` of
`value_as_biggest_unit`, entered with `i + 1 = n`; the result is the content of
the string stream when the loop is left. -/
def scan_units (P : Platform) (bytes : Nat) : Nat → String
  | 0 => ""
  | i + 1 =>
    let result := long_double_div bytes (unit_at i).size
    if to_size_t P result ≥ 1 then
      P.show_long_double result ++ " " ++ (unit_at i).name
    else
      scan_units P bytes i

/-- The function `std::string value_as_biggest_unit(std::size_t bytes)`. -/
def value_as_biggest_unit (P : Platform) (bytes : Nat) : String :=
  if bytes = 0 then "0 " ++ (unit_at 0).name
  else scan_units P bytes maxUnits

/-- The unit the specification names for `bytes`: the largest unit of its
table (bytes = 1, KiBytes = 1024, MiBytes = 1024², GiBytes = 1024³) with
`bytes / size ≥ 1`, and the unit bytes when no unit qualifies. -/
def spec_biggest_unit (bytes : Nat) : Unit :=
  if bytes / 1024 ^ 3 ≥ 1 then ⟨"GiBytes", 1024 ^ 3⟩
  else if bytes / 1024 ^ 2 ≥ 1 then ⟨"MiBytes", 1024 ^ 2⟩
  else if bytes / 1024 ≥ 1 then ⟨"KiBytes", 1024⟩
  else ⟨"bytes", 1⟩

/-! ## The stream's number formatting (library behaviour, for concrete platforms) -/

/-- The largest `e` found within `fuel` steps, starting from `e`, such that
`den * 10 ^ e ≤ num`: the decimal exponent of a quotient that is at least 1. -/
def exponent_up (num den : Nat) : Nat → Nat → Nat
  | 0, e => e
  | fuel + 1, e =>
    if den * 10 ^ (e + 1) ≤ num then exponent_up num den fuel (e + 1) else e

/-- The smallest `k` found within `fuel` steps, starting from `k`, such that
`den ≤ num * 10 ^ k`: minus the decimal exponent of a quotient below 1. -/
def exponent_down (num den : Nat) : Nat → Nat → Nat
  | 0, k => k
  | fuel + 1, k =>
    if den ≤ num * 10 ^ k then k else exponent_down num den fuel (k + 1)

/-- The quotient `a / b` rounded to the nearest integer, ties to even. -/
def round_half_even (a b : Nat) : Nat :=
  let q := a / b
  let r := a % b
  if 2 * r < b then q
  else if b < 2 * r then q + 1
  else if q % 2 = 0 then q else q + 1

/-- The decimal digits of `k`, padded on the left with zeros to `width`. -/
def padded_digits (width k : Nat) : List Char :=
  let ds := Nat.toDigits 10 k
  List.replicate (width - ds.length) '0' ++ ds

/-- Digits without their trailing zeros. -/
def strip_zeros (ds : List Char) : List Char :=
  (ds.reverse.dropWhile (fun c => c == '0')).reverse

/-- An integer part and fraction digits as text; the separator is dropped
when no fraction digit remains. -/
def join_fraction (int_part : Nat) (fraction : List Char) : String :=
  match strip_zeros fraction with
  | [] => String.mk (Nat.toDigits 10 int_part)
  | f => String.mk (Nat.toDigits 10 int_part ++ '.' :: f)

/-- The text `operator<<` writes for a `long double` on a stream in its default
state: six significant digits, fixed or scientific style by the decimal
exponent, trailing zeros removed (the `%Lg` conversion). -/
def show_default : LongDouble → String
  | LongDouble.inf => "inf"
  | LongDouble.nan => "nan"
  | LongDouble.finite num den =>
    if den = 0 then "nan"
    else if num = 0 then "0"
    else
      let e0 : Int :=
        if den ≤ num then (exponent_up num den num 0 : Nat)
        else - (exponent_down num den den 1 : Nat)
      let m0 :=
        if e0 ≤ 5 then round_half_even (num * 10 ^ (5 - e0).toNat) den
        else round_half_even num (den * 10 ^ (e0 - 5).toNat)
      let x : Int := if m0 = 1000000 then e0 + 1 else e0
      let m := if m0 = 1000000 then 100000 else m0
      if -4 ≤ x ∧ x < 6 then
        let k := (5 - x).toNat
        join_fraction (m / 10 ^ k) (padded_digits k (m % 10 ^ k))
      else
        join_fraction (m / 100000) (padded_digits 5 (m % 100000))
          ++ (if x < 0 then "e-" else "e+")
          ++ String.mk (padded_digits 2 x.natAbs)

/-- The text of `strerror` for the error numbers the host model produces. -/
def strerror_linux (errno : Nat) : String :=
  if errno = 1 then "Operation not permitted"
  else if errno = 14 then "Bad address"
  else if errno = 22 then "Invalid argument"
  else "Unknown error " ++ toString errno

/-- A platform with 64-bit `std::size_t` and `rlim_t` on which the conversion
of an out-of-range `long double` yields 0. -/
def lp64 : Platform :=
  ⟨2 ^ 64 - 1, 2 ^ 64 - 1, 0, show_default, strerror_linux, by decide⟩

/-- A platform with 64-bit `std::size_t` and `rlim_t` on which the conversion
of an out-of-range `long double` saturates to `SIZE_MAX`. -/
def lp64_saturating : Platform :=
  ⟨2 ^ 64 - 1, 2 ^ 64 - 1, 2 ^ 64 - 1, show_default, strerror_linux, by decide⟩

/-- A platform with 32-bit `std::size_t` and 32-bit `rlim_t`. -/
def ilp32 : Platform :=
  ⟨2 ^ 32 - 1, 2 ^ 32 - 1, 0, show_default, strerror_linux, by decide⟩

/-- A platform with 32-bit `std::size_t` and 64-bit `rlim_t` (large-file
interface on a 32-bit system). -/
def ilp32_lfs : Platform :=
  ⟨2 ^ 32 - 1, 2 ^ 64 - 1, 0, show_default, strerror_linux, by decide⟩

/-! ## The host: resource limits and memory statistics -/

/-- The record `struct rlimit`: soft limit and hard ceiling. -/
structure rlimit where
  rlim_cur : Nat
  rlim_max : Nat
deriving DecidableEq

/-- The fields of `struct sysinfo` that the source reads.  A snapshot the
host reports is consistent: free RAM and buffer RAM are disjoint parts of the
total RAM, and free swap is part of the total swap. -/
structure sysinfo_t where
  totalram : Nat
  freeram : Nat
  bufferram : Nat
  totalswap : Nat
  freeswap : Nat
  mem_unit : Nat
  ram_within_total : freeram + bufferram ≤ totalram
  swap_within_total : freeswap ≤ totalswap
deriving DecidableEq

/-- The two resource classes the source names. -/
inductive Resource where
  | RLIMIT_NPROC
  | RLIMIT_STACK
deriving DecidableEq

/-- The state of the operating system as far as the source observes it: the
limits of both resources, the memory snapshot, and whether the caller may
raise a hard ceiling. -/
structure Host where
  nproc : rlimit
  stack : rlimit
  info : sysinfo_t
  privileged : Bool
deriving DecidableEq

/-- The limit of a resource in the host's table. -/
def Host.limit (h : Host) : Resource → rlimit
  | Resource.RLIMIT_NPROC => h.nproc
  | Resource.RLIMIT_STACK => h.stack

/-- The host with the limit of one resource replaced. -/
def Host.with_limit (h : Host) (r : Resource) (l : rlimit) : Host :=
  match r with
  | Resource.RLIMIT_NPROC => ⟨l, h.stack, h.info, h.privileged⟩
  | Resource.RLIMIT_STACK => ⟨h.nproc, l, h.info, h.privileged⟩

/-- Error number of an operation that is not permitted. -/
def EPERM : Nat := 1

/-- Error number of a host call that faults. -/
def EFAULT : Nat := 14

/-- Error number of an invalid argument. -/
def EINVAL : Nat := 22

/-- The call `getrlimit(resource, &rlim)`: `none` when the call returns `-1`
(only on an injected fault), the limit otherwise. -/
def getrlimit (fault : Bool) (r : Resource) (h : Host) : Option rlimit :=
  if fault then none else some (h.limit r)

/-- The call `setrlimit(resource, &rlim)`: on failure the error number and no
change; it fails on an injected fault, when the soft limit exceeds the hard
ceiling, and when an unprivileged caller raises the hard ceiling. -/
def setrlimit (fault : Bool) (r : Resource) (l : rlimit) (h : Host) : Except Nat Host :=
  if fault then Except.error EFAULT
  else if l.rlim_max < l.rlim_cur then Except.error EINVAL
  else if (h.limit r).rlim_max < l.rlim_max ∧ h.privileged = false then Except.error EPERM
  else Except.ok (h.with_limit r l)

/-- The call `sysinfo(&info)`: `none` when the call returns `-1` (only on an
injected fault), the snapshot otherwise. -/
def sysinfo (fault : Bool) (h : Host) : Option sysinfo_t :=
  if fault then none else some h.info

/-- A fault plan under which no host call fails. -/
def no_fault : Nat → Bool := fun _ => false

/-- A fault plan under which exactly the `k`-th host call fails. -/
def fault_at (k : Nat) : Nat → Bool := fun i => i == k

/-! ## The operations of `limits_unix.cpp` -/

/-- How a call ends: it returns a `bool`, or `boost::numeric_cast` throws and
the exception leaves the function (the source has no handler). -/
inductive Outcome where
  | returned (b : Bool)
  | threw_bad_numeric_cast
deriving DecidableEq

/-- The function `bool set_maximum_threads(std::size_t count)`: how it ends
and the host afterwards. -/
def set_maximum_threads (P : Platform) (fail : Nat → Bool) (count : Nat) (h : Host) :
    Outcome × Host :=
  match getrlimit (fail 0) Resource.RLIMIT_NPROC h with
  | none => (Outcome.returned false, h)
  | some rlim_nproc =>
    match numeric_cast P.RLIM_T_MAX count with
    | none => (Outcome.threw_bad_numeric_cast, h)
    | some c =>
      match setrlimit (fail 1) Resource.RLIMIT_NPROC ⟨c, rlim_nproc.rlim_max⟩ h with
      | Except.error _ => (Outcome.returned false, h)
      | Except.ok h1 =>
        match getrlimit (fail 2) Resource.RLIMIT_NPROC h1 with
        | none => (Outcome.returned false, h1)
        | some _ => (Outcome.returned true, h1)

/-- The function `bool get_maximum_threads(std::size_t &count)`: how it ends
and the value of `count` afterwards (`count` is its value before the call). -/
def get_maximum_threads (P : Platform) (fail : Nat → Bool) (count : Nat) (h : Host) :
    Outcome × Nat :=
  match getrlimit (fail 0) Resource.RLIMIT_NPROC h with
  | none => (Outcome.returned false, count)
  | some rlim_nproc =>
    match numeric_cast P.SIZE_MAX rlim_nproc.rlim_cur with
    | none => (Outcome.threw_bad_numeric_cast, count)
    | some c => (Outcome.returned true, c)

/-- The function `bool set_stack_size(std::size_t count)`: how it ends, the
host afterwards and the lines written to `std::cerr`.  The hard ceiling is
passed to `value_as_biggest_unit` as a `std::size_t` (implicit conversion). -/
def set_stack_size (P : Platform) (fail : Nat → Bool) (count : Nat) (h : Host) :
    Outcome × Host × List String :=
  match getrlimit (fail 0) Resource.RLIMIT_STACK h with
  | none => (Outcome.returned false, h, [])
  | some rlim_stack =>
    match numeric_cast P.RLIM_T_MAX count with
    | none => (Outcome.threw_bad_numeric_cast, h, [])
    | some c =>
      match setrlimit (fail 1) Resource.RLIMIT_STACK ⟨c, rlim_stack.rlim_max⟩ h with
      | Except.error errno =>
        (Outcome.returned false, h,
          [ "Error on setting stack size to " ++ value_as_biggest_unit P count ++ ": "
              ++ P.strerror errno,
            "Upper limit is "
              ++ value_as_biggest_unit P (rlim_stack.rlim_max % (P.SIZE_MAX + 1)) ])
      | Except.ok h1 => (Outcome.returned true, h1, [])

/-- The function `bool get_stack_size(std::size_t &count)`: how it ends and
the value of `count` afterwards. -/
def get_stack_size (P : Platform) (fail : Nat → Bool) (count : Nat) (h : Host) :
    Outcome × Nat :=
  match getrlimit (fail 0) Resource.RLIMIT_STACK h with
  | none => (Outcome.returned false, count)
  | some rlim_stack =>
    match numeric_cast P.SIZE_MAX rlim_stack.rlim_cur with
    | none => (Outcome.threw_bad_numeric_cast, count)
    | some c => (Outcome.returned true, c)

/-- The three statements that compute `unsigned long result` in
`get_free_memory`: every product and every sum is taken in `unsigned long`,
that is modulo `SIZE_MAX + 1`. -/
def free_memory_sum (P : Platform) (info : sysinfo_t) : Nat :=
  let result := (info.freeram * info.mem_unit) % (P.SIZE_MAX + 1)
  let result := (result + (info.freeswap * info.mem_unit) % (P.SIZE_MAX + 1)) % (P.SIZE_MAX + 1)
  (result + (info.bufferram * info.mem_unit) % (P.SIZE_MAX + 1)) % (P.SIZE_MAX + 1)

/-- The function `bool get_free_memory(std::size_t &count)`: how it ends and
the value of `count` afterwards. -/
def get_free_memory (P : Platform) (fail : Nat → Bool) (count : Nat) (h : Host) :
    Outcome × Nat :=
  match sysinfo (fail 0) h with
  | none => (Outcome.returned false, count)
  | some info =>
    match numeric_cast P.SIZE_MAX (free_memory_sum P info) with
    | none => (Outcome.threw_bad_numeric_cast, count)
    | some c => (Outcome.returned true, c)

/-- The separator line of the diagnostic block. -/
def banner : String := "===================== Limits ====================="

/-- The lines `print_limits` writes once all its queries have succeeded. -/
def limits_block (P : Platform) (freeMemory : Nat) (rlim_stack rlim_nproc : rlimit)
    (info : sysinfo_t) : List String :=
  [ banner,
    "Available memory (with swap): "
      ++ value_as_biggest_unit P ((info.totalram + info.totalswap) % (P.SIZE_MAX + 1)),
    "Free memory: " ++ value_as_biggest_unit P freeMemory,
    "Current maximum stack size of process: "
      ++ value_as_biggest_unit P (rlim_stack.rlim_cur % (P.SIZE_MAX + 1)),
    "Maximum possible stack size: "
      ++ value_as_biggest_unit P (rlim_stack.rlim_max % (P.SIZE_MAX + 1)),
    "Current maximum number of threads: " ++ toString rlim_nproc.rlim_cur,
    "Maximum possible number of threads: " ++ toString rlim_nproc.rlim_max,
    banner ]

/-- The function `bool print_limits()`: how it ends and the lines written to
`std::cout`.  Its host calls are numbered 0 (the `sysinfo` inside
`get_free_memory`), 1 and 2 (the two `getrlimit`) and 3 (its own `sysinfo`). -/
def print_limits (P : Platform) (fail : Nat → Bool) (h : Host) : Outcome × List String :=
  match get_free_memory P fail 0 h with
  | (Outcome.threw_bad_numeric_cast, _) => (Outcome.threw_bad_numeric_cast, [])
  | (Outcome.returned false, _) => (Outcome.returned false, [])
  | (Outcome.returned true, freeMemory) =>
    match getrlimit (fail 1) Resource.RLIMIT_STACK h with
    | none => (Outcome.returned false, [])
    | some rlim_stack =>
      match getrlimit (fail 2) Resource.RLIMIT_NPROC h with
      | none => (Outcome.returned false, [])
      | some rlim_nproc =>
        match sysinfo (fail 3) h with
        | none => (Outcome.returned false, [])
        | some info =>
          (Outcome.returned true, limits_block P freeMemory rlim_stack rlim_nproc info)

/-! ## Concrete hosts -/

/-- A host with a process limit of 100 under a ceiling of 1000. -/
def host_a : Host :=
  ⟨⟨100, 1000⟩, ⟨8388608, 2 ^ 64 - 1⟩, ⟨4000000, 1000000, 50000, 500000, 400000, 4096, by decide, by decide⟩, false⟩

/-- A host whose limits are both unlimited (`RLIM_INFINITY` of a 64-bit
`rlim_t`). -/
def host_unlimited : Host :=
  ⟨⟨2 ^ 64 - 1, 2 ^ 64 - 1⟩, ⟨2 ^ 64 - 1, 2 ^ 64 - 1⟩,
    ⟨4000000, 1000000, 50000, 500000, 400000, 4096, by decide, by decide⟩, false⟩

/-- A 32-bit host that counts memory in pages of 4096 bytes: 4 GiB of RAM
with 3 GiB free, 2 GiB of swap, all of it free. -/
def host_large_memory : Host :=
  ⟨⟨100, 1000⟩, ⟨8388608, 2 ^ 32 - 1⟩, ⟨1048576, 786432, 0, 524288, 524288, 4096, by decide, by decide⟩, false⟩

end boost.limits

namespace boost.limits

/-! ## Facts about `value_as_biggest_unit` -/

theorem unit_at_four : unit_at 4 = ⟨"", 0⟩ := rfl

theorem scan_units_succ (P : Platform) (bytes i : Nat) :
    scan_units P bytes (i + 1) =
      if to_size_t P (long_double_div bytes (unit_at i).size) ≥ 1 then
        P.show_long_double (long_double_div bytes (unit_at i).size) ++ " " ++ (unit_at i).name
      else scan_units P bytes i := rfl

theorem to_size_t_finite (P : Platform) (bytes size : Nat) (hs : size ≠ 0)
    (hb : bytes ≤ P.SIZE_MAX) : to_size_t P (LongDouble.finite bytes size) = bytes / size := by
  have h : bytes / size ≤ P.SIZE_MAX := le_trans (Nat.div_le_self _ _) hb
  simp [to_size_t, hs, h]

theorem scan_units_five_of_cast_pos (P : Platform) (hP : 1 ≤ P.cast_out_of_range)
    (bytes : Nat) (hb : bytes ≠ 0) :
    scan_units P bytes 5 = P.show_long_double LongDouble.inf ++ " " ++ "" := by
  rw [scan_units_succ, unit_at_four]
  simp [long_double_div, hb, to_size_t, hP]

theorem scan_units_step (P : Platform) (bytes i : Nat) (hs : (unit_at i).size ≠ 0)
    (hmax : bytes ≤ P.SIZE_MAX) :
    scan_units P bytes (i + 1) =
      if bytes / (unit_at i).size ≥ 1 then
        P.show_long_double (LongDouble.finite bytes (unit_at i).size) ++ " " ++ (unit_at i).name
      else scan_units P bytes i := by
  rw [scan_units_succ]
  simp only [long_double_div, if_neg hs, to_size_t_finite P bytes _ hs hmax]

theorem value_as_biggest_unit_of_cast_zero (P : Platform) (hP : P.cast_out_of_range = 0)
    (bytes : Nat) (hb : bytes ≠ 0) (hmax : bytes ≤ P.SIZE_MAX) :
    value_as_biggest_unit P bytes =
      P.show_long_double (LongDouble.finite bytes (spec_biggest_unit bytes).size)
        ++ " " ++ (spec_biggest_unit bytes).name := by
  have hpos : 1 ≤ bytes := Nat.one_le_iff_ne_zero.mpr hb
  unfold value_as_biggest_unit maxUnits
  rw [if_neg hb, scan_units_succ, unit_at_four]
  have hinf : ¬ to_size_t P (long_double_div bytes 0) ≥ 1 := by
    simp [long_double_div, hb, to_size_t, hP]
  rw [if_neg hinf, scan_units_step P bytes 3 (by decide) hmax,
    scan_units_step P bytes 2 (by decide) hmax, scan_units_step P bytes 1 (by decide) hmax,
    scan_units_step P bytes 0 (by decide) hmax]
  have u3 : unit_at 3 = ⟨"GiBytes", 1024 ^ 3⟩ := rfl
  have u2 : unit_at 2 = ⟨"MiBytes", 1024 ^ 2⟩ := rfl
  have u1 : unit_at 1 = ⟨"KiBytes", 1024⟩ := rfl
  have u0 : unit_at 0 = ⟨"bytes", 1⟩ := rfl
  rw [u3, u2, u1, u0]
  unfold spec_biggest_unit
  by_cases c3 : bytes / 1024 ^ 3 ≥ 1
  · simp only [if_pos c3]
  · by_cases c2 : bytes / 1024 ^ 2 ≥ 1
    · simp only [if_neg c3, if_pos c2]
    · by_cases c1 : bytes / 1024 ≥ 1
      · simp only [if_neg c3, if_neg c2, if_pos c1]
      · have c0 : bytes / 1 ≥ 1 := by simpa using hpos
        simp only [if_neg c3, if_neg c2, if_neg c1, if_pos c0]

theorem scan_units_shape (P : Platform) (bytes : Nat) :
    ∀ n, scan_units P bytes n = "" ∨
      ∃ i, i < n ∧ ∃ text : String, scan_units P bytes n = text ++ " " ++ (unit_at i).name := by
  intro n
  induction n with
  | zero => exact Or.inl rfl
  | succ i ih =>
    rw [scan_units_succ]
    by_cases c : to_size_t P (long_double_div bytes (unit_at i).size) ≥ 1
    · rw [if_pos c]
      exact Or.inr ⟨i, Nat.lt_succ_self i, _, rfl⟩
    · rw [if_neg c]
      rcases ih with h | ⟨j, hj, t, ht⟩
      · exact Or.inl h
      · exact Or.inr ⟨j, Nat.lt_succ_of_lt hj, t, ht⟩

theorem last_char_of_append (text name : String) :
    (text ++ " " ++ name).data.reverse.head? =
      (name.data.reverse ++ [' ']).head? := by
  simp [String.data_append]

theorem unit_text_ne_KiByte (text : String) (i : Nat) (hi : i < 5) :
    text ++ " " ++ (unit_at i).name ≠ "1 KiByte" := by
  intro h
  have h2 := congrArg (fun s : String => s.data.reverse.head?) h
  simp only [last_char_of_append] at h2
  have hcases : i = 0 ∨ i = 1 ∨ i = 2 ∨ i = 3 ∨ i = 4 := by omega
  rcases hcases with rfl | rfl | rfl | rfl | rfl <;> revert h2 <;> decide

/-- C1, the code at every nonzero input: where the conversion of an
out-of-range `long double` to `std::size_t` yields at least 1, the scan of
`value_as_biggest_unit` stops at the fifth, value-initialised entry of the
table: the result is the text of the quotient `bytes / 0` followed by a blank
and the empty unit name, which is not the unit the specification names. -/
theorem value_as_biggest_unit_stops_at_empty_unit (P : Platform)
    (hP : 1 ≤ P.cast_out_of_range) (bytes : Nat) (hb : bytes ≠ 0) :
    value_as_biggest_unit P bytes =
        P.show_long_double LongDouble.inf ++ " " ++ (unit_at (maxUnits - 1)).name
      ∧ (unit_at (maxUnits - 1)).name = ""
      ∧ (unit_at (maxUnits - 1)).name ≠ (spec_biggest_unit bytes).name := by
  refine ⟨?_, rfl, ?_⟩
  · unfold value_as_biggest_unit maxUnits
    rw [if_neg hb, scan_units_five_of_cast_pos P hP bytes hb]
    rfl
  · unfold spec_biggest_unit
    split_ifs <;> decide

/-- C1 at 1536 bytes on a platform with a saturating conversion: the result
is `"inf "`, with no unit, where the specification names KiBytes. -/
theorem value_as_biggest_unit_1536_saturating :
    value_as_biggest_unit lp64_saturating 1536 = "inf "
      ∧ (spec_biggest_unit 1536).name = "KiBytes" :=
  ⟨(value_as_biggest_unit_stops_at_empty_unit lp64_saturating (by decide) 1536
      (by decide)).1.trans (by decide), by decide⟩

/-- C9, the code at 1024: on no platform is the result the documented
`"1 KiByte"`; where the out-of-range conversion yields 0 and the stream prints
with its default format the result is `"1 KiBytes"`. -/
theorem value_as_biggest_unit_1024_ne_doc :
    (∀ P : Platform, value_as_biggest_unit P 1024 ≠ "1 KiByte")
      ∧ value_as_biggest_unit lp64 1024 = "1 KiBytes" := by
  constructor
  · intro P
    unfold value_as_biggest_unit maxUnits
    rw [if_neg (by decide)]
    rcases scan_units_shape P 1024 5 with h | ⟨i, hi, t, ht⟩
    · rw [h]; decide
    · rw [ht]; exact unit_text_ne_KiByte t i hi
  · decide

/-- C10, the table the scan visits: the entry at index `maxUnits - 1`, the
first one visited, has size zero and an empty name; for every `bytes ≥ 1` the
first quotient is a division by zero; with a saturating conversion the result
for 1 byte is `"inf "`, which ends in no unit name. -/
theorem units_last_entry_zero_and_unnamed :
    (unit_at (maxUnits - 1)).size = 0
      ∧ (unit_at (maxUnits - 1)).name = ""
      ∧ (∀ bytes : Nat, long_double_div (bytes + 1) (unit_at (maxUnits - 1)).size
            = LongDouble.inf)
      ∧ value_as_biggest_unit lp64_saturating 1 = "inf " := by
  refine ⟨rfl, rfl, ?_, by decide⟩
  intro bytes
  simp [long_double_div, maxUnits, unit_at_four]

/-! ## Facts about the limit operations -/

theorem numeric_cast_fits (T_MAX v : Nat) (h : v ≤ T_MAX) : numeric_cast T_MAX v = some v := by
  simp [numeric_cast, h]

theorem numeric_cast_overflow (T_MAX v : Nat) (h : T_MAX < v) : numeric_cast T_MAX v = none := by
  simp [numeric_cast, Nat.not_le.mpr h]

theorem setrlimit_above_ceiling (fault : Bool) (r : Resource) (l : rlimit) (h : Host)
    (hl : l.rlim_max < l.rlim_cur) : ∃ errno, setrlimit fault r l h = Except.error errno := by
  unfold setrlimit
  cases fault
  · exact ⟨EINVAL, by simp [hl]⟩
  · exact ⟨EFAULT, by simp⟩

theorem setrlimit_soft_only (r : Resource) (c : Nat) (h : Host) (hc : c ≤ (h.limit r).rlim_max) :
    setrlimit false r ⟨c, (h.limit r).rlim_max⟩ h
      = Except.ok (h.with_limit r ⟨c, (h.limit r).rlim_max⟩) := by
  simp [setrlimit, Nat.not_lt.mpr hc]

theorem set_maximum_threads_result (P : Platform) (fail : Nat → Bool) (count : Nat) (h : Host) :
    set_maximum_threads P fail count h =
      if fail 0 = true then (Outcome.returned false, h)
      else if P.RLIM_T_MAX < count then (Outcome.threw_bad_numeric_cast, h)
      else if fail 1 = true ∨ h.nproc.rlim_max < count then (Outcome.returned false, h)
      else if fail 2 = true then
        (Outcome.returned false, h.with_limit Resource.RLIMIT_NPROC ⟨count, h.nproc.rlim_max⟩)
      else (Outcome.returned true, h.with_limit Resource.RLIMIT_NPROC ⟨count, h.nproc.rlim_max⟩) := by
  unfold set_maximum_threads getrlimit
  cases h0 : fail 0
  swap
  · simp
  by_cases hc : P.RLIM_T_MAX < count
  · simp [numeric_cast_overflow _ _ hc, hc]
  rw [numeric_cast_fits _ _ (Nat.not_lt.mp hc)]
  simp only [if_neg hc, Bool.false_eq_true, if_false]
  cases h1 : fail 1
  swap
  · simp [setrlimit]
  by_cases hm : h.nproc.rlim_max < count
  · simp [setrlimit, Host.limit, hm]
  have e := setrlimit_soft_only Resource.RLIMIT_NPROC count h (Nat.not_lt.mp hm)
  simp only [Host.limit] at e
  simp only [Host.limit, e, hm, Bool.false_eq_true, false_or, if_false]
  cases h2 : fail 2 <;> simp

/-- C2: on a host whose calls do not fail, for every `count` (a
`std::size_t`) that is at most the hard ceiling of the process limit,
`set_maximum_threads(count)` returns true and the `get_maximum_threads` that
follows returns true with `count` in its out-parameter. -/
theorem set_then_get_maximum_threads (P : Platform) (h : Host) (count c0 : Nat)
    (hceil : count ≤ h.nproc.rlim_max) (hmax : h.nproc.rlim_max ≤ P.RLIM_T_MAX)
    (hsize : count ≤ P.SIZE_MAX) :
    (set_maximum_threads P no_fault count h).1 = Outcome.returned true
      ∧ get_maximum_threads P no_fault c0 (set_maximum_threads P no_fault count h).2
          = (Outcome.returned true, count) := by
  have hfit : ¬ P.RLIM_T_MAX < count := Nat.not_lt.mpr (le_trans hceil hmax)
  have e : set_maximum_threads P no_fault count h = (Outcome.returned true,
      h.with_limit Resource.RLIMIT_NPROC ⟨count, h.nproc.rlim_max⟩) := by
    rw [set_maximum_threads_result]
    simp only [no_fault, Bool.false_eq_true, if_false, if_neg hfit, false_or,
      if_neg (Nat.not_lt.mpr hceil)]
  rw [e]
  refine ⟨rfl, ?_⟩
  simp [get_maximum_threads, getrlimit, no_fault, Host.limit, Host.with_limit,
    numeric_cast_fits _ _ hsize]

/-- Witness of C2: a limit of 500 under a ceiling of 1000. -/
theorem set_then_get_maximum_threads_witness :
    (set_maximum_threads lp64 no_fault 500 host_a).1 = Outcome.returned true
      ∧ get_maximum_threads lp64 no_fault 0 (set_maximum_threads lp64 no_fault 500 host_a).2
          = (Outcome.returned true, 500) :=
  set_then_get_maximum_threads lp64 host_a 500 0 (by decide) (by decide) (by decide)

/-- C3: for every `count` (a `std::size_t`) above the hard ceiling of the
process limit, whatever the caller's privilege and whichever host call fails,
`set_maximum_threads(count)` returns false and leaves the host as it was, so
`get_maximum_threads` reports the same before and after. -/
theorem set_maximum_threads_above_ceiling (P : Platform) (fail : Nat → Bool) (h : Host)
    (count : Nat) (habove : h.nproc.rlim_max < count) (hsize : count ≤ P.SIZE_MAX) :
    set_maximum_threads P fail count h = (Outcome.returned false, h)
      ∧ ∀ (fail2 : Nat → Bool) (c0 : Nat),
          get_maximum_threads P fail2 c0 (set_maximum_threads P fail count h).2
            = get_maximum_threads P fail2 c0 h := by
  have hfit : count ≤ P.RLIM_T_MAX := le_trans hsize P.size_le_rlim
  have e : set_maximum_threads P fail count h = (Outcome.returned false, h) := by
    rw [set_maximum_threads_result]
    simp only [if_neg (Nat.not_lt.mpr hfit), habove, or_true, if_true]
    split_ifs <;> rfl
  exact ⟨e, fun fail2 c0 => by rw [e]⟩

/-- Witness of C3: 5000 over a ceiling of 1000. -/
theorem set_maximum_threads_above_ceiling_witness :
    set_maximum_threads lp64 no_fault 5000 host_a = (Outcome.returned false, host_a)
      ∧ ∀ (fail2 : Nat → Bool) (c0 : Nat),
          get_maximum_threads lp64 fail2 c0 (set_maximum_threads lp64 no_fault 5000 host_a).2
            = get_maximum_threads lp64 fail2 c0 host_a :=
  set_maximum_threads_above_ceiling lp64 no_fault host_a 5000 (by decide) (by decide)

/-- C4 refuted: when the confirming re-read is the call that fails,
`set_maximum_threads(500)` returns false although the write has been applied:
the soft limit is 500 afterwards and was 100 before. -/
theorem set_maximum_threads_reread_failure_keeps_write :
    (set_maximum_threads lp64 (fault_at 2) 500 host_a).1 = Outcome.returned false
      ∧ (set_maximum_threads lp64 (fault_at 2) 500 host_a).2.nproc.rlim_cur = 500
      ∧ (set_maximum_threads lp64 (fault_at 2) 500 host_a).2.nproc.rlim_cur
          ≠ host_a.nproc.rlim_cur := by
  decide

/-- C4 as amended: whenever `set_maximum_threads(count)` returns false, the
host is left as it was if the failing step is the first read or the write;
otherwise the failing step is the confirming re-read, and the write has taken
effect: the soft limit is `count` under the unchanged hard ceiling. -/
theorem set_maximum_threads_false_effect (P : Platform) (fail : Nat → Bool) (count : Nat)
    (h : Host) (hfalse : (set_maximum_threads P fail count h).1 = Outcome.returned false) :
    ((fail 0 = true ∨ fail 1 = true ∨ h.nproc.rlim_max < count) →
        (set_maximum_threads P fail count h).2 = h)
      ∧ (¬ (fail 0 = true ∨ fail 1 = true ∨ h.nproc.rlim_max < count) →
          fail 2 = true
            ∧ (set_maximum_threads P fail count h).2.nproc = ⟨count, h.nproc.rlim_max⟩) := by
  rw [set_maximum_threads_result] at hfalse ⊢
  by_cases h0 : fail 0 = true
  · simp [h0]
  by_cases hc : P.RLIM_T_MAX < count
  · simp [h0, hc] at hfalse
  by_cases h1 : fail 1 = true ∨ h.nproc.rlim_max < count
  · have h1b : fail 0 = true ∨ fail 1 = true ∨ h.nproc.rlim_max < count := Or.inr h1
    simp only [if_neg h0, if_neg hc, if_pos h1, h1b, not_true_eq_false, forall_true_left]
    simp
  · have h1b : ¬ (fail 0 = true ∨ fail 1 = true ∨ h.nproc.rlim_max < count) := by
      rintro (a | b)
      · exact h0 a
      · exact h1 b
    by_cases h2 : fail 2 = true
    · simp only [if_neg h0, if_neg hc, if_neg h1, if_pos h2, h1b]
      simp [Host.with_limit, h2]
    · simp [h0, hc, h1, h2] at hfalse

/-- Witness of C4 as amended: the write is the failing step, and the host is
as before. -/
theorem set_maximum_threads_false_effect_witness :
    (set_maximum_threads lp64 (fault_at 1) 500 host_a).1 = Outcome.returned false
      ∧ (set_maximum_threads lp64 (fault_at 1) 500 host_a).2 = host_a :=
  ⟨by decide,
    (set_maximum_threads_false_effect lp64 (fault_at 1) 500 host_a (by decide)).1 (by decide)⟩

theorem setter_conversion_fits (P : Platform) (count : Nat) (hsize : count ≤ P.SIZE_MAX) :
    numeric_cast P.RLIM_T_MAX count = some count :=
  numeric_cast_fits _ _ (le_trans hsize P.size_le_rlim)

theorem getters_throw_out_of_range (P : Platform) (fail : Nat → Bool) (h : Host) (c0 : Nat)
    (hread : fail 0 = false) :
    (P.SIZE_MAX < h.nproc.rlim_cur →
        get_maximum_threads P fail c0 h = (Outcome.threw_bad_numeric_cast, c0))
      ∧ (P.SIZE_MAX < h.stack.rlim_cur →
          get_stack_size P fail c0 h = (Outcome.threw_bad_numeric_cast, c0)) := by
  refine ⟨fun hc => ?_, fun hc => ?_⟩
  · simp [get_maximum_threads, getrlimit, hread, Host.limit, numeric_cast_overflow _ _ hc]
  · simp [get_stack_size, getrlimit, hread, Host.limit, numeric_cast_overflow _ _ hc]

/-- C5, the code on a host with a 32-bit `std::size_t` whose soft limits are
unlimited (`RLIM_INFINITY` held in a 64-bit `rlim_t`): the read succeeds, the
soft limit does not fit `std::size_t`, and `get_maximum_threads` and
`get_stack_size` do not return false: they end by the exception
`numeric_cast` throws, which the source does not catch (the out-parameter
keeps its value 7). -/
theorem numeric_range_failure_is_thrown :
    ilp32_lfs.SIZE_MAX < host_unlimited.nproc.rlim_cur
      ∧ get_maximum_threads ilp32_lfs no_fault 7 host_unlimited
          = (Outcome.threw_bad_numeric_cast, 7)
      ∧ (get_maximum_threads ilp32_lfs no_fault 7 host_unlimited).1 ≠ Outcome.returned false
      ∧ get_stack_size ilp32_lfs no_fault 7 host_unlimited
          = (Outcome.threw_bad_numeric_cast, 7)
      ∧ (get_stack_size ilp32_lfs no_fault 7 host_unlimited).1 ≠ Outcome.returned false := by
  decide

/-! ## Facts about `get_free_memory` and `print_limits` -/

theorem free_memory_sum_eq_mod (P : Platform) (info : sysinfo_t) :
    free_memory_sum P info =
      (info.freeram * info.mem_unit + info.freeswap * info.mem_unit
        + info.bufferram * info.mem_unit) % (P.SIZE_MAX + 1) := by
  simp [free_memory_sum, Nat.add_mod]

theorem free_memory_sum_le (P : Platform) (info : sysinfo_t) :
    free_memory_sum P info ≤ P.SIZE_MAX := by
  rw [free_memory_sum_eq_mod]
  exact Nat.le_of_lt_succ (Nat.mod_lt _ (Nat.succ_pos _))

theorem get_free_memory_result (P : Platform) (fail : Nat → Bool) (count : Nat) (h : Host) :
    get_free_memory P fail count h =
      if fail 0 = true then (Outcome.returned false, count)
      else (Outcome.returned true, free_memory_sum P h.info) := by
  unfold get_free_memory sysinfo
  cases h0 : fail 0
  · simp [numeric_cast_fits _ _ (free_memory_sum_le P h.info)]
  · simp

/-- C6, the code on a 32-bit host with 3 GiB of free RAM and 2 GiB of free
swap: `get_free_memory` returns true with 1073741824 in `count`, the sum
wrapped modulo 2³², while the exact sum is 5368709120. -/
theorem get_free_memory_returns_wrapped_sum :
    get_free_memory ilp32 no_fault 0 host_large_memory = (Outcome.returned true, 1073741824)
      ∧ host_large_memory.info.freeram * host_large_memory.info.mem_unit
          + host_large_memory.info.freeswap * host_large_memory.info.mem_unit
          + host_large_memory.info.bufferram * host_large_memory.info.mem_unit = 5368709120
      ∧ 5368709120 % (ilp32.SIZE_MAX + 1) = 1073741824 := by
  decide

/-- C7: whenever the system-info query succeeds, `get_free_memory` returns
true and the value it writes to `count` is at most total RAM plus total swap in
bytes, `(totalram + totalswap) * mem_unit`. -/
theorem get_free_memory_within_total (P : Platform) (fail : Nat → Bool) (c0 : Nat) (h : Host)
    (hquery : fail 0 = false) :
    (get_free_memory P fail c0 h).1 = Outcome.returned true
      ∧ (get_free_memory P fail c0 h).2
          ≤ (h.info.totalram + h.info.totalswap) * h.info.mem_unit := by
  rw [get_free_memory_result]
  simp only [hquery, Bool.false_eq_true, if_false, true_and]
  rw [free_memory_sum_eq_mod]
  refine le_trans (Nat.mod_le _ _) ?_
  calc h.info.freeram * h.info.mem_unit + h.info.freeswap * h.info.mem_unit
        + h.info.bufferram * h.info.mem_unit
      = ((h.info.freeram + h.info.bufferram) + h.info.freeswap) * h.info.mem_unit := by ring
    _ ≤ (h.info.totalram + h.info.totalswap) * h.info.mem_unit :=
        Nat.mul_le_mul_right _
          (Nat.add_le_add h.info.ram_within_total h.info.swap_within_total)

/-- Witness of C7: 5939200000 bytes free of 18432000000 in total. -/
theorem get_free_memory_within_total_witness :
    get_free_memory lp64 no_fault 0 host_a = (Outcome.returned true, 5939200000)
      ∧ (get_free_memory lp64 no_fault 0 host_a).2
          ≤ (host_a.info.totalram + host_a.info.totalswap) * host_a.info.mem_unit :=
  ⟨by decide, (get_free_memory_within_total lp64 no_fault 0 host_a rfl).2⟩

/-- C8: `print_limits` is all-or-nothing.  If any of its four queries fails
(host calls 0 to 3) it returns false and writes nothing; if all four succeed it
returns true and writes the whole block: the separator, the six diagnostic
lines (total memory, free memory, current and maximum stack size, current and
maximum thread count) and the separator again. -/
theorem print_limits_all_or_nothing (P : Platform) (fail : Nat → Bool) (h : Host) :
    print_limits P fail h =
      if fail 0 = true ∨ fail 1 = true ∨ fail 2 = true ∨ fail 3 = true then
        (Outcome.returned false, [])
      else
        (Outcome.returned true,
          [ banner,
            "Available memory (with swap): "
              ++ value_as_biggest_unit P
                  ((h.info.totalram + h.info.totalswap) % (P.SIZE_MAX + 1)),
            "Free memory: " ++ value_as_biggest_unit P (free_memory_sum P h.info),
            "Current maximum stack size of process: "
              ++ value_as_biggest_unit P (h.stack.rlim_cur % (P.SIZE_MAX + 1)),
            "Maximum possible stack size: "
              ++ value_as_biggest_unit P (h.stack.rlim_max % (P.SIZE_MAX + 1)),
            "Current maximum number of threads: " ++ toString h.nproc.rlim_cur,
            "Maximum possible number of threads: " ++ toString h.nproc.rlim_max,
            banner ]) := by
  unfold print_limits
  rw [get_free_memory_result]
  cases h0 : fail 0
  swap
  · simp
  cases h1 : fail 1
  swap
  · simp [getrlimit]
  cases h2 : fail 2
  swap
  · simp [getrlimit]
  cases h3 : fail 3
  swap
  · simp [getrlimit, sysinfo]
  simp [getrlimit, sysinfo, limits_block, Host.limit]

end boost.limits
